import Mathlib

/-!
Verification of the replay-buffer core of `utils/buffer_large.py`.

Modelling conventions (shallow embedding):
* A torch tensor of shape `(batch=1, time, feature)` is modelled as a
  `List Int` indexed by the time axis (the content of each time step is
  abstracted to a single `Int`; the buffers are content-agnostic).
  `t.size(1)` becomes `List.length`.
* `np.random.*` draws are passed in as explicit oracle arguments; a
  hypothesis states the documented contract of the draw.
* Python exceptions (`AttributeError`, `IndexError`, `TypeError`) are
  modelled with `Except String`.
* Python floor division `//` is `Int.fdiv`.
-/

namespace BufferLarge

/-- Reservoir sampling policy (`reservoir` in the source).  The random draw
`np.random.randint(0, num_seen_examples + 1)` is passed in as the explicit
oracle argument `rand`; the contract `rand ≤ num_seen_examples` is stated as
a hypothesis where needed. -/
def reservoir (num_seen_examples buffer_size : Nat) (rand : Nat) : Int :=
  if num_seen_examples < buffer_size then num_seen_examples
  else if rand < buffer_size then rand
  else -1

/-- Ring policy (`ring` in the source). -/
def ring (num_seen_examples buffer_portion_size task : Nat) : Nat :=
  num_seen_examples % buffer_portion_size + task * buffer_portion_size

/-- FIFO policy (`fifo` in the source). -/
def fifo (num_seen_examples buffer_size : Nat) : Nat :=
  num_seen_examples % buffer_size

/-- Python slice `t[-k:]` on the time axis: the last `k` time steps.
Python's `t[-0:]` is the whole of `t`, hence the `k = 0` case. -/
def pyLast (xs : List Int) (k : Nat) : List Int :=
  if k = 0 then xs else xs.drop (xs.length - k)

/-- A dynamically typed Python value, as far as the buffer code needs:
`None`, ints, bools, a time-series tensor, or a plain list. -/
inductive PyVal where
  | pyNone
  | int (n : Int)
  | bool (b : Bool)
  | series (xs : List Int)
  | list (xs : List Int)
  deriving Repr, DecidableEq

/-- Python truthiness of a `PyVal` (`if self.fast_mode:`). -/
def PyVal.truthy : PyVal → Bool
  | .pyNone => false
  | .int n => n ≠ 0
  | .bool b => b
  | .series xs => xs ≠ []
  | .list xs => xs ≠ []

/-- Attribute access `.size(1)`: only a series tensor has it. -/
def PyVal.size1 : PyVal → Except String Nat
  | .series xs => .ok xs.length
  | _ => .error "AttributeError: size"

/-- Use of a `PyVal` as a Python int. -/
def PyVal.asInt : PyVal → Except String Int
  | .int n => .ok n
  | _ => .error "TypeError: an integer is required"

/-- Model of `StreamDataset` as constructed at runtime: Python stores whatever values
were bound to the parameters, with no type checking (`__init__` just assigns
the attributes). -/
structure StreamDataset where
  x : PyVal
  y : PyVal
  logits : PyVal
  seq_len : PyVal
  pred_len : PyVal
  sample_freq : PyVal
  fast_mode : PyVal
  deriving Repr, DecidableEq

/-- Calling `StreamDataset(...)` with a list of positional arguments.
`__init__(self, x, y, logits, seq_len, pred_len, sample_freq,
fast_mode=True)` has six required parameters and one defaulted one; any
other arity raises `TypeError` at the call site. -/
def StreamDataset.init (args : List PyVal) : Except String StreamDataset :=
  match args with
  | [x, y, logits, s, p, f] => .ok ⟨x, y, logits, s, p, f, .bool true⟩
  | [x, y, logits, s, p, f, fm] => .ok ⟨x, y, logits, s, p, f, fm⟩
  | _ => .error "TypeError: StreamDataset.init missing required positional arguments"

/-- Model of `StreamDataset.__len__`: `x.size(1) - seq_len` in fast (dense) mode,
`(x.size(1) - seq_len - pred_len) // sample_freq + 1` otherwise.  No
clamping of negative values appears in the source. -/
def StreamDataset.len (d : StreamDataset) : Except String Int :=
  if d.fast_mode.truthy then do
    let n ← d.x.size1
    let s ← d.seq_len.asInt
    Except.ok ((n : Int) - s)
  else do
    let n ← d.x.size1
    let s ← d.seq_len.asInt
    let p ← d.pred_len.asInt
    let f ← d.sample_freq.asInt
    if f = 0 then Except.error "ZeroDivisionError: integer division by zero"
    else Except.ok (((n : Int) - s - p).fdiv f + 1)

/-- State of `FastStreamBuffer`.  `x = none` models the Python `self.x is None`
unset state; `y` is only created by the first `add_data` call, hence also an
`Option`.  `length` is a Python int and may become negative. -/
structure FastStreamBuffer where
  buffer_size : Nat
  seq_len : Nat
  pred_len : Nat
  x : Option (List Int)
  y : Option (List Int)
  length : Int
  deriving Repr, DecidableEq

/-- Model of `FastStreamBuffer.__init__` (device argument abstracted away). -/
def FastStreamBuffer.init (buffer_size seq_len pred_len : Nat) : FastStreamBuffer :=
  ⟨buffer_size, seq_len, pred_len, none, none, 0⟩

/-- Model of `FastStreamBuffer.add_data(x, pred)`.  First call stores the series and
sets `length = 0`; later calls drop the oldest step when `length ≥
buffer_size`, append the last step of `x` (`x[:,-1:,:]`), rebuild `y` from
the new series plus `pred`, and recompute `length = x.size(1) - seq_len`. -/
def FastStreamBuffer.add_data (b : FastStreamBuffer) (x pred : List Int) :
    FastStreamBuffer :=
  match b.x with
  | none => { b with x := some x, y := some pred, length := 0 }
  | some bx =>
    let bx1 := if (b.buffer_size : Int) ≤ b.length then bx.drop 1 else bx
    let bx2 := bx1 ++ pyLast x 1
    { b with x := some bx2, y := some (bx2 ++ pred),
             length := (bx2.length : Int) - b.seq_len }

/-- Model of `FastStreamBuffer.clear()`. -/
def FastStreamBuffer.clear (b : FastStreamBuffer) : FastStreamBuffer :=
  { b with x := none, length := 0 }

/-- Model of `FastStreamBuffer.get_data(size)`: evaluates `self.y` (an
`AttributeError` if never added), then calls
`StreamDataset(self.x, self.y, self.seq_len, self.pred_len)` — four
positional arguments — then clamps `size` to `len(dataset)` and returns the
dataset with the batch size (the `DataLoader` collaborator is abstracted to
that pair). -/
def FastStreamBuffer.get_data (b : FastStreamBuffer) (size : Int) :
    Except String (StreamDataset × Int) := do
  let xv : PyVal := match b.x with
    | some v => PyVal.series v
    | none => PyVal.pyNone
  let yv : PyVal ← match b.y with
    | some v => Except.ok (PyVal.series v)
    | none => Except.error "AttributeError: y"
  let ds ← StreamDataset.init [xv, yv, PyVal.int b.seq_len, PyVal.int b.pred_len]
  let n ← ds.len
  let size' := if n < size then n else size
  Except.ok (ds, size')

/-- State of `SlowStreamBuffer` (device-free; `logits` is the side-channel
list, one entry per add retained). -/
structure SlowStreamBuffer where
  buffer_size : Nat
  seq_len : Nat
  pred_len : Nat
  sample_freq : Nat
  x : Option (List Int)
  logits : List Int
  length : Int
  deriving Repr, DecidableEq

/-- Model of `SlowStreamBuffer.__init__`. -/
def SlowStreamBuffer.init (buffer_size seq_len pred_len sample_freq : Nat) :
    SlowStreamBuffer :=
  ⟨buffer_size, seq_len, pred_len, sample_freq, none, [], 0⟩

/-- Model of `SlowStreamBuffer.add_data(x, logits)`.  First call stores the series
and a singleton side-channel list with `length = 0`.  Later calls: when
`length ≥ buffer_size`, drop the `sample_freq` oldest steps
(`x[:,sample_freq:,:]`) and the oldest side-channel entry (`logits[1:]`);
then append the newest `sample_freq` steps of the input
(`x[:,-sample_freq:,:]`) and the new side-channel value, and recompute
`length` by the strided window formula, floored at 0. -/
def SlowStreamBuffer.add_data (b : SlowStreamBuffer) (x : List Int) (lg : Int) :
    SlowStreamBuffer :=
  match b.x with
  | none => { b with x := some x, logits := [lg], length := 0 }
  | some bx =>
    let bx1 := if (b.buffer_size : Int) ≤ b.length then bx.drop b.sample_freq else bx
    let lgs1 := if (b.buffer_size : Int) ≤ b.length then b.logits.drop 1 else b.logits
    let bx2 := bx1 ++ pyLast x b.sample_freq
    let lgs2 := lgs1 ++ [lg]
    let len2 : Int :=
      if 0 ≤ (bx2.length : Int) - b.seq_len - b.pred_len then
        ((bx2.length : Int) - b.seq_len - b.pred_len).fdiv b.sample_freq + 1
      else 0
    { b with x := some bx2, logits := lgs2, length := len2 }

/-- Model of `SlowStreamBuffer.clear()`. -/
def SlowStreamBuffer.clear (b : SlowStreamBuffer) : SlowStreamBuffer :=
  { b with x := none, logits := [], length := 0 }

/-- State of `Buffer` (the attribute buffer).  Each attribute array is `none`
while the Python attribute does not exist (`hasattr` false) and
`some arr` once allocated; each stored item is abstracted to one `Int`.
The device argument is abstracted away; `add_data` uses the literal `fifo`
function regardless of the configured mode, so the mode is not part of the
state. -/
structure Buffer where
  buffer_size : Nat
  num_seen_examples : Nat
  examples : Option (List Int)
  labels : Option (List Int)
  logits : Option (List Int)
  task_labels : Option (List Int)
  deriving Repr, DecidableEq

/-- Model of `Buffer.__init__(buffer_size, device, n_tasks=1, mode='fifo')`. -/
def Buffer.init (buffer_size : Nat) : Buffer :=
  ⟨buffer_size, 0, none, none, none, none⟩

/-- Model of `Buffer.init_tensors`: for each attribute, if the corresponding
argument is not `None` and the attribute does not yet exist, allocate a
zero array of leading dimension `buffer_size` (`torch.zeros`). -/
def Buffer.init_tensors (b : Buffer)
    (examples labels logits task_labels : Option (List Int)) : Buffer :=
  let alloc : Option (List Int) → Option (List Int) → Option (List Int) :=
    fun arg cur => if arg.isSome ∧ cur.isNone then some (List.replicate b.buffer_size 0) else cur
  { b with examples := alloc examples b.examples,
           labels := alloc labels b.labels,
           logits := alloc logits b.logits,
           task_labels := alloc task_labels b.task_labels }

/-- One iteration of the loop body of `Buffer.add_data`: compute the slot
with the literal `fifo` policy, advance the counter, and overwrite the slot
in every attribute array whose per-item argument is present (the `index >= 0`
guard is always true for `fifo`). -/
def Buffer.add_one (b : Buffer) (ex : Int) (lb lg tl : Option Int) : Buffer :=
  let index := fifo b.num_seen_examples b.buffer_size
  { b with num_seen_examples := b.num_seen_examples + 1,
           examples := b.examples.map (fun xs => xs.set index ex),
           labels := match lb with
             | some v => b.labels.map (fun xs => xs.set index v)
             | none => b.labels,
           logits := match lg with
             | some v => b.logits.map (fun xs => xs.set index v)
             | none => b.logits,
           task_labels := match tl with
             | some v => b.task_labels.map (fun xs => xs.set index v)
             | none => b.task_labels }

/-- Model of `Buffer.add_data(examples, labels=None, logits=None, task_labels=None)`:
lazily allocate on the first call (`hasattr(self, 'examples')` check), then
iterate over the batch in order. -/
def Buffer.add_data (b : Buffer) (examples : List Int)
    (labels logits task_labels : Option (List Int)) : Buffer :=
  let b0 := if b.examples.isNone then b.init_tensors (some examples) labels logits task_labels else b
  (List.range examples.length).foldl
    (fun bb i =>
      bb.add_one (examples.getD i 0)
        (labels.map (fun l => l.getD i 0))
        (logits.map (fun l => l.getD i 0))
        (task_labels.map (fun l => l.getD i 0)))
    b0

/-- Model of `Buffer.get_data(size)`: fails with `AttributeError` when `examples`
was never allocated; otherwise clamps `size` to
`n = min(num_seen_examples, examples.shape[0])`, draws `size` distinct
slots via `np.random.choice(n, size=size, replace=False)` — modelled by the
oracle `rng n size` — and returns every present attribute sliced at those
slots.  The `transform` collaborator is the identity default. -/
def Buffer.get_data (b : Buffer) (size : Nat) (rng : Nat → Nat → List Nat) :
    Except String (List Int × Option (List Int) × Option (List Int) × Option (List Int)) :=
  match b.examples with
  | none => Except.error "AttributeError: Buffer object has no attribute examples"
  | some ex =>
    let n := min b.num_seen_examples ex.length
    let size' := if n < size then n else size
    let choice := rng n size'
    Except.ok
      (choice.map (fun i => ex.getD i 0),
       b.labels.map (fun l => choice.map (fun i => l.getD i 0)),
       b.logits.map (fun l => choice.map (fun i => l.getD i 0)),
       b.task_labels.map (fun l => choice.map (fun i => l.getD i 0)))

/-- Model of `Buffer.get_all_data()`: fails with `AttributeError` when `examples`
was never allocated; otherwise returns every attribute array whole. -/
def Buffer.get_all_data (b : Buffer) :
    Except String (List Int × Option (List Int) × Option (List Int) × Option (List Int)) :=
  match b.examples with
  | none => Except.error "AttributeError: Buffer object has no attribute examples"
  | some ex => Except.ok (ex, b.labels, b.logits, b.task_labels)

/-- Model of `Buffer.empty()`: `delattr` every attribute and reset the counter. -/
def Buffer.empty (b : Buffer) : Buffer :=
  { b with examples := none, labels := none, logits := none, task_labels := none,
           num_seen_examples := 0 }

/-- Model of `Buffer.is_empty()`. -/
def Buffer.is_empty (b : Buffer) : Bool :=
  b.num_seen_examples = 0

/-- State of `BufferFIFO`.  Its attribute list is just `['losses']`; the
`examples` field mirrors the Python attribute of that name, which no method
of the class ever assigns, so it can only be `none`. -/
structure BufferFIFO where
  buffer_size : Nat
  num_seen_examples : Nat
  losses : Option (List Int)
  examples : Option (List Int)
  deriving Repr, DecidableEq

/-- Model of `BufferFIFO.__init__(buffer_size, device, n_tasks=1, mode='reservoir')`. -/
def BufferFIFO.init (buffer_size : Nat) : BufferFIFO :=
  ⟨buffer_size, 0, none, none⟩

/-- Model of `BufferFIFO.add_data(losses)`: lazily allocate `losses` (zeros of
length `buffer_size`), then execute
`self.losses[self.num_seen_examples] = losses` — an `IndexError` when the
counter is outside the array (no wraparound) — and increment the counter. -/
def BufferFIFO.add_data (b : BufferFIFO) (loss : Int) : Except String BufferFIFO :=
  let ls := match b.losses with
    | none => List.replicate b.buffer_size 0
    | some ls => ls
  if b.num_seen_examples < ls.length then
    Except.ok { b with losses := some (ls.set b.num_seen_examples loss),
                       num_seen_examples := b.num_seen_examples + 1 }
  else
    Except.error "IndexError: index out of bounds for dimension 0"

/-- Model of `BufferFIFO.get_data(size)`: trailing-window mean over the most recent
entries (clamped).  Returned as the list of selected entries, the mean
collaborator being numeric. -/
def BufferFIFO.get_data (b : BufferFIFO) (size : Nat) : Except String (List Int) :=
  match b.losses with
  | none => Except.error "AttributeError: BufferFIFO object has no attribute losses"
  | some ls =>
    let n := min b.num_seen_examples ls.length
    let size' := if n < size then n else size
    Except.ok ((ls.take b.num_seen_examples).drop (b.num_seen_examples - size'))

/-- Model of `BufferFIFO.get_all_data()`: iterates `self.examples`, an attribute the
class never creates, so the lookup raises `AttributeError` whenever it is
absent. -/
def BufferFIFO.get_all_data (b : BufferFIFO) : Except String (List Int) :=
  match b.examples with
  | none => Except.error "AttributeError: BufferFIFO object has no attribute examples"
  | some ex => Except.ok ex

/-- Model of `BufferFIFO.empty()`: `delattr` the attributes in `self.attributes`
(only `losses`) and reset the counter. -/
def BufferFIFO.empty (b : BufferFIFO) : BufferFIFO :=
  { b with losses := none, num_seen_examples := 0 }

/-- Model of `BufferFIFO.is_empty()`. -/
def BufferFIFO.is_empty (b : BufferFIFO) : Bool :=
  b.num_seen_examples = 0

/-- States of a `BufferFIFO` reachable from construction through its public
mutating operations. -/
inductive BufferFIFO.Reachable : BufferFIFO → Prop where
  | init (c : Nat) : BufferFIFO.Reachable (BufferFIFO.init c)
  | add {b b' : BufferFIFO} (loss : Int) : BufferFIFO.Reachable b →
      b.add_data loss = Except.ok b' → BufferFIFO.Reachable b'
  | empty {b : BufferFIFO} : BufferFIFO.Reachable b → BufferFIFO.Reachable b.empty

/-- The spec's fifo example run: capacity 3, the five scalar labels
10, 20, 30, 40, 50 added one at a time. -/
def fifoScenario : Buffer :=
  ([10, 20, 30, 40, 50] : List Int).foldl
    (fun bb w => bb.add_data [w] (some [w]) none none) (Buffer.init 3)

/-- Claim C1: in fifo mode with capacity 3, adding the five scalar labels
10, 20, 30, 40, 50 one at a time leaves the buffer holding 40, 50, 30 at
slots 0, 1, 2 and the counter at 5; and in general each offered item is
written at slot `num_seen_examples % buffer_size`, after which the counter
advances by one. -/
theorem buffer_fifo_add_data_slot (b : Buffer) (ex : List Int) (v l : Int)
    (hex : b.examples = some ex) :
    (fifoScenario.examples = some [40, 50, 30]
      ∧ fifoScenario.labels = some [40, 50, 30]
      ∧ fifoScenario.num_seen_examples = 5)
    ∧ (b.add_data [v] (some [l]) none none).num_seen_examples = b.num_seen_examples + 1
    ∧ (b.add_data [v] (some [l]) none none).examples
        = some (ex.set (b.num_seen_examples % b.buffer_size) v) := by
  refine ⟨⟨by decide, by decide, by decide⟩, ?_, ?_⟩ <;>
    simp [Buffer.add_data, Buffer.add_one, fifo, hex, List.range_succ]

/-- Concrete instantiation of the C1 theorem: a capacity-3 buffer that has
seen 4 items receives a fifth, which lands at slot `4 % 3 = 1`. -/
theorem buffer_fifo_add_data_slot_witness :
    ((fifoScenario.examples = some [40, 50, 30]
      ∧ fifoScenario.labels = some [40, 50, 30]
      ∧ fifoScenario.num_seen_examples = 5)
    ∧ (Buffer.add_data ⟨3, 4, some [1, 2, 3], none, none, none⟩ [7] (some [7]) none none).num_seen_examples = 4 + 1
    ∧ (Buffer.add_data ⟨3, 4, some [1, 2, 3], none, none, none⟩ [7] (some [7]) none none).examples
        = some (([1, 2, 3] : List Int).set (4 % 3) 7)) :=
  buffer_fifo_add_data_slot ⟨3, 4, some [1, 2, 3], none, none, none⟩ [1, 2, 3] 7 7 rfl

/-- Claim C2: the reservoir policy returns `num_seen_examples` while the
buffer is filling; otherwise it returns the drawn integer when that is
below `buffer_size` and the reject value `-1` when not, so every
non-reject slot lies in `[0, buffer_size)`. -/
theorem reservoir_policy_spec (n c rand : Nat) (hc : 0 < c) (hrand : rand ≤ n) :
    (n < c → reservoir n c rand = n)
    ∧ (c ≤ n → reservoir n c rand = if rand < c then (rand : Int) else -1)
    ∧ (reservoir n c rand ≠ -1 → 0 ≤ reservoir n c rand ∧ reservoir n c rand < c) := by
  unfold reservoir
  refine ⟨fun h => by simp [h], fun h => by simp [Nat.not_lt.mpr h], ?_⟩
  intro hne
  by_cases h1 : n < c
  · simp only [if_pos h1]
    exact ⟨Int.ofNat_nonneg n, by exact_mod_cast h1⟩
  · by_cases h2 : rand < c
    · simp only [if_neg h1, if_pos h2]
      exact ⟨Int.ofNat_nonneg rand, by exact_mod_cast h2⟩
    · simp only [if_neg h1, if_neg h2] at hne
      exact absurd rfl hne

/-- Concrete instantiation of the C2 theorem at `n = 5`, `c = 3`,
`rand = 2`. -/
theorem reservoir_policy_spec_witness :
    (5 < 3 → reservoir 5 3 2 = 5)
    ∧ (3 ≤ 5 → reservoir 5 3 2 = if 2 < 3 then (2 : Int) else -1)
    ∧ (reservoir 5 3 2 ≠ -1 → 0 ≤ reservoir 5 3 2 ∧ reservoir 5 3 2 < 3) :=
  reservoir_policy_spec 5 3 2 (by decide) (by decide)

/-- The documented contract of `np.random.choice(n, size=k, replace=False)`:
`k` pairwise-distinct values below `n`. -/
def NpChoiceSpec (rng : Nat → Nat → List Nat) : Prop :=
  ∀ n k, k ≤ n → (rng n k).length = k ∧ (rng n k).Nodup ∧ ∀ i ∈ rng n k, i < n

/-- Claim C3: on a buffer whose arrays are allocated, `get_data(size)`
clamps `size` to `n = min(num_seen_examples, capacity)`, samples that many
pairwise-distinct slots from `[0, n)` without replacement, and returns the
attributes at those slots — never more than `min(size, n)` items. -/
theorem buffer_get_data_distinct (b : Buffer) (ex : List Int) (size : Nat)
    (rng : Nat → Nat → List Nat) (hex : b.examples = some ex)
    (hrng : NpChoiceSpec rng) :
    let n := min b.num_seen_examples ex.length
    let k := if n < size then n else size
    let choice := rng n k
    b.get_data size rng = Except.ok
      (choice.map (fun i => ex.getD i 0),
       b.labels.map (fun l => choice.map (fun i => l.getD i 0)),
       b.logits.map (fun l => choice.map (fun i => l.getD i 0)),
       b.task_labels.map (fun l => choice.map (fun i => l.getD i 0)))
    ∧ choice.length ≤ min size n
    ∧ choice.Nodup
    ∧ ∀ i ∈ choice, i < n := by
  intro n k choice
  have hk : k ≤ n := by
    by_cases h : n < size <;> simp [k, h] <;> omega
  obtain ⟨hlen, hnd, hmem⟩ := hrng n k hk
  refine ⟨?_, ?_, hnd, hmem⟩
  · simp only [Buffer.get_data, hex]
  · rw [hlen]
    by_cases h : n < size <;> simp [k, h] <;> omega

/-- Concrete instantiation of the C3 theorem: two items seen in a
capacity-2 buffer, five requested, sampled with the identity-range
oracle. -/
theorem buffer_get_data_distinct_witness :
    let b : Buffer := ⟨2, 2, some [5, 6], none, none, none⟩
    let rng : Nat → Nat → List Nat := fun _ k => List.range k
    let n := min b.num_seen_examples 2
    let k := if n < 5 then n else 5
    let choice := rng n k
    b.get_data 5 rng = Except.ok
      (choice.map (fun i => ([5, 6] : List Int).getD i 0),
       b.labels.map (fun l => choice.map (fun i => l.getD i 0)),
       b.logits.map (fun l => choice.map (fun i => l.getD i 0)),
       b.task_labels.map (fun l => choice.map (fun i => l.getD i 0)))
    ∧ choice.length ≤ min 5 n
    ∧ choice.Nodup
    ∧ ∀ i ∈ choice, i < n :=
  buffer_get_data_distinct ⟨2, 2, some [5, 6], none, none, none⟩ [5, 6] 5
    (fun _ k => List.range k) rfl
    (fun n k hk => ⟨List.length_range k, List.nodup_range k,
      fun i hi => lt_of_lt_of_le (List.mem_range.mp hi) hk⟩)

/-- Claim C4, counterexample to the claim as stated: the very first
`add_data` stores the full series but sets the length field to 0, not to
`series_length - seq_len` (here `5 - 2 = 3`). -/
theorem fast_stream_first_add_length_zero :
    ((FastStreamBuffer.init 10 2 1).add_data [1, 2, 3, 4, 5] [9]).length = 0
    ∧ ((FastStreamBuffer.init 10 2 1).add_data [1, 2, 3, 4, 5] [9]).x = some [1, 2, 3, 4, 5]
    ∧ ((([1, 2, 3, 4, 5] : List Int).length : Int) - 2 ≠ 0) := by
  refine ⟨rfl, rfl, by decide⟩

/-- Claim C4, amended: the first `add_data` sets the length field to 0
regardless of the series length; every subsequent `add_data` sets it to
the new series length minus `seq_len`; and when the stored length has
reached `buffer_size`, the call drops exactly the one oldest time-step and
appends exactly one new one, leaving the series length unchanged. -/
theorem fast_stream_add_data_length (b : FastStreamBuffer) (bx x pred : List Int)
    (hbx : b.x = some bx) (hbne : bx ≠ []) (hxne : x ≠ []) :
    (∀ (b0 : FastStreamBuffer), b0.x = none →
      ∀ x0 p0, (b0.add_data x0 p0).length = 0)
    ∧ ∃ bx', (b.add_data x pred).x = some bx'
      ∧ (b.add_data x pred).length = (bx'.length : Int) - b.seq_len
      ∧ ((b.buffer_size : Int) ≤ b.length →
          bx' = bx.drop 1 ++ pyLast x 1 ∧ bx'.length = bx.length) := by
  constructor
  · intro b0 h0 x0 p0
    simp [FastStreamBuffer.add_data, h0]
  · refine ⟨(if (b.buffer_size : Int) ≤ b.length then bx.drop 1 else bx) ++ pyLast x 1,
      ?_, ?_, ?_⟩
    · simp [FastStreamBuffer.add_data, hbx]
    · simp [FastStreamBuffer.add_data, hbx]
    · intro hfull
      have hx1 : (pyLast x 1).length = 1 := by
        have : 1 ≤ x.length := List.length_pos.mpr hxne
        simp [pyLast]
        omega
      have hbx1 : 1 ≤ bx.length := List.length_pos.mpr hbne
      rw [if_pos hfull]
      refine ⟨rfl, ?_⟩
      rw [List.length_append, List.length_drop, hx1]
      omega

/-- Concrete instantiation of the amended C4 theorem: a full buffer
(capacity 3, stored length 3) receiving one more step. -/
theorem fast_stream_add_data_length_witness :
    (∀ (b0 : FastStreamBuffer), b0.x = none →
      ∀ x0 p0, (b0.add_data x0 p0).length = 0)
    ∧ ∃ bx', ((⟨3, 2, 1, some [1, 2, 3, 4, 5], some [6], 3⟩ : FastStreamBuffer).add_data [7, 8] [9]).x = some bx'
      ∧ ((⟨3, 2, 1, some [1, 2, 3, 4, 5], some [6], 3⟩ : FastStreamBuffer).add_data [7, 8] [9]).length
          = (bx'.length : Int) - 2
      ∧ (((3 : Nat) : Int) ≤ 3 →
          bx' = ([1, 2, 3, 4, 5] : List Int).drop 1 ++ pyLast [7, 8] 1
          ∧ bx'.length = ([1, 2, 3, 4, 5] : List Int).length) :=
  fast_stream_add_data_length ⟨3, 2, 1, some [1, 2, 3, 4, 5], some [6], 3⟩
    [1, 2, 3, 4, 5] [7, 8] [9] rfl (by decide) (by decide)

/-- Claim C5: `FastStreamBuffer.get_data` can never succeed — it calls
`StreamDataset` with four positional arguments while `__init__` requires
six, so every call raises (a `TypeError`, or an `AttributeError` on `self.y`
if nothing was ever added). -/
theorem fast_stream_get_data_always_raises (b : FastStreamBuffer) (size : Int) :
    ∃ e, b.get_data size = Except.error e := by
  unfold FastStreamBuffer.get_data
  cases hy : b.y with
  | none => exact ⟨_, rfl⟩
  | some ys => exact ⟨_, rfl⟩

/-- Claim C6: a slow buffer at capacity drops exactly `sample_freq` oldest
time-steps and one oldest side-channel entry, appends the newest
`sample_freq` steps of the input and the new side-channel value, and
recomputes the length by the strided formula floored at 0. -/
theorem slow_stream_add_data_evict (b : SlowStreamBuffer) (bx x : List Int) (lg : Int)
    (hbx : b.x = some bx) (hfull : (b.buffer_size : Int) ≤ b.length)
    (hsf : 0 < b.sample_freq) (hsx : b.sample_freq ≤ x.length)
    (hbxlen : b.sample_freq ≤ bx.length) (hlg : b.logits ≠ []) :
    ∃ bx', (b.add_data x lg).x = some bx'
      ∧ bx' = bx.drop b.sample_freq ++ pyLast x b.sample_freq
      ∧ bx'.length = bx.length
      ∧ (b.add_data x lg).logits = b.logits.drop 1 ++ [lg]
      ∧ (b.add_data x lg).logits.length = b.logits.length
      ∧ (b.add_data x lg).length =
          (if (b.seq_len : Int) + b.pred_len ≤ (bx'.length : Int) then
            ((bx'.length : Int) - b.seq_len - b.pred_len).fdiv b.sample_freq + 1
          else 0) := by
  have hpy : (pyLast x b.sample_freq).length = b.sample_freq := by
    simp [pyLast, hsf.ne']
    omega
  have hlg1 : 1 ≤ b.logits.length := List.length_pos.mpr hlg
  refine ⟨bx.drop b.sample_freq ++ pyLast x b.sample_freq, ?_, rfl, ?_, ?_, ?_, ?_⟩
  · simp [SlowStreamBuffer.add_data, hbx, if_pos hfull]
  · rw [List.length_append, List.length_drop, hpy]
    omega
  · simp [SlowStreamBuffer.add_data, hbx, if_pos hfull]
  · simp [SlowStreamBuffer.add_data, hbx, if_pos hfull]
    omega
  · simp only [SlowStreamBuffer.add_data, hbx, if_pos hfull]
    have hiff : (0 ≤ ((bx.drop b.sample_freq ++ pyLast x b.sample_freq).length : Int)
          - b.seq_len - b.pred_len)
        ↔ ((b.seq_len : Int) + b.pred_len
          ≤ ((bx.drop b.sample_freq ++ pyLast x b.sample_freq).length : Int)) := by
      omega
    by_cases hcond : (b.seq_len : Int) + b.pred_len
        ≤ ((bx.drop b.sample_freq ++ pyLast x b.sample_freq).length : Int)
    · rw [if_pos (hiff.mpr hcond), if_pos hcond]
    · rw [if_neg (fun hh => hcond (hiff.mp hh)), if_neg hcond]

/-- Concrete instantiation of the C6 theorem: capacity 2, stride 2, a
6-step series at length 2 receiving 3 new steps. -/
theorem slow_stream_add_data_evict_witness :
    ∃ bx', ((⟨2, 1, 1, 2, some [1, 2, 3, 4, 5, 6], [7, 8], 2⟩ : SlowStreamBuffer).add_data [10, 20, 30] 99).x = some bx'
      ∧ bx' = ([1, 2, 3, 4, 5, 6] : List Int).drop 2 ++ pyLast [10, 20, 30] 2
      ∧ bx'.length = ([1, 2, 3, 4, 5, 6] : List Int).length
      ∧ ((⟨2, 1, 1, 2, some [1, 2, 3, 4, 5, 6], [7, 8], 2⟩ : SlowStreamBuffer).add_data [10, 20, 30] 99).logits
          = ([7, 8] : List Int).drop 1 ++ [99]
      ∧ ((⟨2, 1, 1, 2, some [1, 2, 3, 4, 5, 6], [7, 8], 2⟩ : SlowStreamBuffer).add_data [10, 20, 30] 99).logits.length
          = ([7, 8] : List Int).length
      ∧ ((⟨2, 1, 1, 2, some [1, 2, 3, 4, 5, 6], [7, 8], 2⟩ : SlowStreamBuffer).add_data [10, 20, 30] 99).length =
          (if ((1 : Nat) : Int) + (1 : Nat) ≤ (bx'.length : Int) then
            ((bx'.length : Int) - (1 : Nat) - (1 : Nat)).fdiv (2 : Nat) + 1
          else 0) :=
  slow_stream_add_data_evict ⟨2, 1, 1, 2, some [1, 2, 3, 4, 5, 6], [7, 8], 2⟩
    [1, 2, 3, 4, 5, 6] [10, 20, 30] 99 rfl (by decide) (by decide) (by decide)
    (by decide) (by decide)

/-- Claim C7, counterexample to the claim as stated: a dense windowed view
over a 1-step series with `seq_len = 2` reports length `-1` — the length is
not clamped to zero. -/
theorem stream_dataset_len_negative :
    StreamDataset.len ⟨.series [0], .series [0], .list [], .int 2, .int 0, .int 1, .bool true⟩
      = Except.ok (-1)
    ∧ ((-1 : Int) < 0) :=
  ⟨rfl, by decide⟩

/-- Claim C7, amended: on well-typed fields with a positive stride the
reported length is exactly `len(X) - seq_len` in dense mode and
`(len(X) - seq_len - pred_len) // sample_freq + 1` in strided mode, with no
raising — and no clamping: in dense mode with `len(X) < seq_len` the
reported length is negative. -/
theorem stream_dataset_len_formula (xs ys lgs : List Int) (s p f : Nat) (fm : Bool)
    (hf : 0 < f) :
    StreamDataset.len ⟨.series xs, .series ys, .list lgs, .int s, .int p, .int f, .bool fm⟩
      = Except.ok (if fm then (xs.length : Int) - s
                   else ((xs.length : Int) - s - p).fdiv f + 1)
    ∧ (fm = true → xs.length < s →
        ∃ L, StreamDataset.len ⟨.series xs, .series ys, .list lgs, .int s, .int p, .int f, .bool fm⟩
          = Except.ok L ∧ L < 0) := by
  have hne : ((f : Int) = 0) = False := by
    simp
    exact_mod_cast hf.ne'
  constructor
  · cases fm
    · show (if (f : Int) = 0 then Except.error "ZeroDivisionError: integer division by zero"
          else Except.ok (((xs.length : Int) - s - p).fdiv f + 1))
        = Except.ok (((xs.length : Int) - s - p).fdiv f + 1)
      rw [if_neg (by exact_mod_cast hf.ne')]
    · rfl
  · intro hfm hlt
    subst hfm
    exact ⟨(xs.length : Int) - s, rfl, by omega⟩

/-- Concrete instantiation of the amended C7 theorem in strided mode:
`len(X) = 7`, `seq_len = 2`, `pred_len = 1`, stride 2 gives
`(7 - 2 - 1) // 2 + 1 = 3`. -/
theorem stream_dataset_len_formula_witness :
    StreamDataset.len ⟨.series [1, 2, 3, 4, 5, 6, 7], .series [1, 2, 3, 4, 5, 6, 7],
        .list [9, 9, 9], .int 2, .int 1, .int 2, .bool false⟩
      = Except.ok (if false then (([1, 2, 3, 4, 5, 6, 7] : List Int).length : Int) - 2
                   else ((([1, 2, 3, 4, 5, 6, 7] : List Int).length : Int) - 2 - 1).fdiv 2 + 1)
    ∧ (false = true → ([1, 2, 3, 4, 5, 6, 7] : List Int).length < 2 →
        ∃ L, StreamDataset.len ⟨.series [1, 2, 3, 4, 5, 6, 7], .series [1, 2, 3, 4, 5, 6, 7],
            .list [9, 9, 9], .int 2, .int 1, .int 2, .bool false⟩
          = Except.ok L ∧ L < 0) :=
  stream_dataset_len_formula [1, 2, 3, 4, 5, 6, 7] [1, 2, 3, 4, 5, 6, 7] [9, 9, 9]
    2 1 2 false (by decide)

/-- Claim C8: `BufferFIFO.add_data` writes at slot `num_seen_examples`
with no wraparound and then increments the counter; once the counter has
reached the capacity, every further call fails with an out-of-range error
instead of overwriting a slot. -/
theorem buffer_fifo_add_data_overflow (b : BufferFIFO) (loss : Int)
    (hls : b.losses = none ∨ ∃ ls, b.losses = some ls ∧ ls.length = b.buffer_size) :
    (b.num_seen_examples < b.buffer_size →
      ∃ b', b.add_data loss = Except.ok b'
        ∧ b'.num_seen_examples = b.num_seen_examples + 1
        ∧ ∃ ls', b'.losses = some ls'
            ∧ ls'.getD b.num_seen_examples 0 = loss
            ∧ ls'.length = b.buffer_size)
    ∧ (b.buffer_size ≤ b.num_seen_examples →
        ∃ e, b.add_data loss = Except.error e) := by
  have harr : ∃ ls, (match b.losses with
      | none => List.replicate b.buffer_size 0
      | some ls => ls) = ls ∧ ls.length = b.buffer_size := by
    rcases hls with h | ⟨ls, h, hlen⟩
    · exact ⟨List.replicate b.buffer_size 0, by rw [h], List.length_replicate _ _⟩
    · exact ⟨ls, by rw [h], hlen⟩
  obtain ⟨ls, hmatch, hlen⟩ := harr
  constructor
  · intro hlt
    refine ⟨{ b with losses := some (ls.set b.num_seen_examples loss),
                     num_seen_examples := b.num_seen_examples + 1 }, ?_, rfl,
      ls.set b.num_seen_examples loss, rfl, ?_, by simp [hlen]⟩
    · unfold BufferFIFO.add_data
      rw [hmatch, if_pos (by omega)]
    · have hin : b.num_seen_examples < (ls.set b.num_seen_examples loss).length := by
        simp [hlen]
        omega
      rw [List.getD_eq_getElem _ _ hin]
      exact List.getElem_set_self _
  · intro hge
    unfold BufferFIFO.add_data
    rw [hmatch, if_neg (by omega)]
    exact ⟨_, rfl⟩

/-- Concrete instantiation of the C8 theorem: a fresh capacity-1 buffer
accepts the first item; the same buffer with its counter at capacity
rejects with an error. -/
theorem buffer_fifo_add_data_overflow_witness :
    (((BufferFIFO.init 1).num_seen_examples < (BufferFIFO.init 1).buffer_size →
      ∃ b', (BufferFIFO.init 1).add_data 42 = Except.ok b'
        ∧ b'.num_seen_examples = (BufferFIFO.init 1).num_seen_examples + 1
        ∧ ∃ ls', b'.losses = some ls'
            ∧ ls'.getD (BufferFIFO.init 1).num_seen_examples 0 = 42
            ∧ ls'.length = (BufferFIFO.init 1).buffer_size)
    ∧ ((BufferFIFO.init 1).buffer_size ≤ (BufferFIFO.init 1).num_seen_examples →
        ∃ e, (BufferFIFO.init 1).add_data 42 = Except.error e))
    ∧ (((⟨1, 1, some [5], none⟩ : BufferFIFO).num_seen_examples < 1 →
      ∃ b', (⟨1, 1, some [5], none⟩ : BufferFIFO).add_data 42 = Except.ok b'
        ∧ b'.num_seen_examples = (⟨1, 1, some [5], none⟩ : BufferFIFO).num_seen_examples + 1
        ∧ ∃ ls', b'.losses = some ls'
            ∧ ls'.getD (⟨1, 1, some [5], none⟩ : BufferFIFO).num_seen_examples 0 = 42
            ∧ ls'.length = 1)
    ∧ (1 ≤ (⟨1, 1, some [5], none⟩ : BufferFIFO).num_seen_examples →
        ∃ e, (⟨1, 1, some [5], none⟩ : BufferFIFO).add_data 42 = Except.error e)) :=
  ⟨buffer_fifo_add_data_overflow (BufferFIFO.init 1) 42 (Or.inl rfl),
   buffer_fifo_add_data_overflow ⟨1, 1, some [5], none⟩ 42 (Or.inr ⟨[5], rfl, rfl⟩)⟩

/-- Claim C9: on a freshly constructed attribute buffer, and on any buffer
just reset by `empty()`, both `get_data` and `get_all_data` fail with the
unallocated-state (`AttributeError`) error. -/
theorem buffer_get_before_add_raises (c size : Nat) (rng : Nat → Nat → List Nat)
    (b : Buffer) :
    (∃ e, (Buffer.init c).get_data size rng = Except.error e)
    ∧ (∃ e, (Buffer.init c).get_all_data = Except.error e)
    ∧ (∃ e, (b.empty).get_data size rng = Except.error e)
    ∧ (∃ e, (b.empty).get_all_data = Except.error e) :=
  ⟨⟨_, rfl⟩, ⟨_, rfl⟩, ⟨_, rfl⟩, ⟨_, rfl⟩⟩

/-- Helper: `BufferFIFO.add_data` never creates the `examples` attribute. -/
theorem BufferFIFO.examples_of_add_data {b b' : BufferFIFO} {loss : Int}
    (h : b.add_data loss = Except.ok b') : b'.examples = b.examples := by
  unfold BufferFIFO.add_data at h
  by_cases hlt : b.num_seen_examples <
      (match b.losses with
        | none => List.replicate b.buffer_size 0
        | some ls => ls).length
  · rw [if_pos hlt] at h
    cases h
    rfl
  · rw [if_neg hlt] at h
    cases h

/-- Claim C10: in every reachable `BufferFIFO` state — including after any
number of successful `add_data` calls and `empty()` resets —
`get_all_data` fails with an attribute error, because the `examples`
attribute it reads is never created by the class. -/
theorem buffer_fifo_get_all_data_raises (b : BufferFIFO)
    (h : BufferFIFO.Reachable b) :
    ∃ e, b.get_all_data = Except.error e := by
  have hex : b.examples = none := by
    induction h with
    | init c => rfl
    | add loss _ hok ih => rw [BufferFIFO.examples_of_add_data hok, ih]
    | empty _ ih => exact ih
  unfold BufferFIFO.get_all_data
  rw [hex]
  exact ⟨_, rfl⟩

/-- Concrete instantiation of the C10 theorem: a capacity-3 buffer that
has absorbed one loss value. -/
theorem buffer_fifo_get_all_data_raises_witness :
    ∃ e, (⟨3, 1, some [7, 0, 0], none⟩ : BufferFIFO).get_all_data = Except.error e :=
  buffer_fifo_get_all_data_raises ⟨3, 1, some [7, 0, 0], none⟩
    (BufferFIFO.Reachable.add 7 (BufferFIFO.Reachable.init 3) rfl)

end BufferLarge
